import Mathlib

/-!
Verification development for the `wm_depot_cb_agent` diagnostic and
recommendation engine.  Numeric values that the Python source handles as
floats are embedded as exact rationals (`ℚ`); Python's `int(...)` truncation
toward zero is modelled by `pyInt`; fallible operations (`int(depot)` on a
string) are modelled with `Option`/`Except`.  Each definition mirrors one
function of the source modules `item_recommender.py`, `root_cause_analyzer.py`
and `query_generator.py`.
-/

/-- Python `int(x)` on a float value: truncation toward zero. -/
def pyInt (q : ℚ) : ℤ :=
  if 0 ≤ q then ⌊q⌋ else ⌈q⌉

/-- Left-pad a string with zeros up to width `nd` (decimal rendering helper). -/
def padZeros (nd : Nat) (s : String) : String :=
  if s.length < nd then String.mk (List.replicate (nd - s.length) '0') ++ s else s

/-- Round a rational to the nearest integer, ties to even — the rounding used
by Python float formatting. -/
def roundHalfEven (q : ℚ) : ℤ :=
  let f := ⌊q⌋
  let r := q - (f : ℚ)
  if r < 1/2 then f
  else if 1/2 < r then f + 1
  else if f % 2 = 0 then f else f + 1

/-- Model of Python `f"{x:.nd f}"` fixed-point formatting on a rational. -/
def formatFixed (nd : Nat) (q : ℚ) : String :=
  let scale : ℤ := (10 : ℤ) ^ nd
  let n := roundHalfEven (q * (scale : ℚ))
  let sign := if n < 0 then "-" else ""
  let m := n.natAbs
  let ip := m / 10 ^ nd
  let fp := m % 10 ^ nd
  sign ++ toString ip ++ (if nd = 0 then "" else "." ++ padZeros nd (toString fp))

/-! ### A stable descending sort, keyed by a rational

Python's `list.sort(key=..., reverse=True)` is a stable sort into descending
key order.  A stable sort is uniquely determined by its output being sorted,
being a permutation of the input, and preserving the relative order of
equal-key elements, so the insertion sort below is a faithful model. -/

/-- Insert `x` into a descending-sorted list, after every element whose key is
strictly greater (so elements already in the list that tie with `x` keep their
earlier position — `x` arrives later in input order). -/
def insertDescBy {α : Type} (key : α → ℚ) (x : α) : List α → List α
  | [] => [x]
  | y :: ys => if key x < key y then y :: insertDescBy key x ys else x :: y :: ys

/-- Stable insertion sort into descending key order. -/
def sortDescBy {α : Type} (key : α → ℚ) : List α → List α
  | [] => []
  | x :: xs => insertDescBy key x (sortDescBy key xs)

theorem mem_insertDescBy {α : Type} (key : α → ℚ) (x a : α) (l : List α) :
    a ∈ insertDescBy key x l ↔ a = x ∨ a ∈ l := by
  induction l with
  | nil => simp [insertDescBy]
  | cons y ys ih =>
    simp only [insertDescBy]
    split
    · simp only [List.mem_cons, ih]
      tauto
    · simp only [List.mem_cons]

theorem length_insertDescBy {α : Type} (key : α → ℚ) (x : α) (l : List α) :
    (insertDescBy key x l).length = l.length + 1 := by
  induction l with
  | nil => rfl
  | cons y ys ih =>
    simp only [insertDescBy]
    split
    · simp [ih]
    · simp

theorem length_sortDescBy {α : Type} (key : α → ℚ) (l : List α) :
    (sortDescBy key l).length = l.length := by
  induction l with
  | nil => rfl
  | cons x xs ih => simp [sortDescBy, length_insertDescBy, ih]

theorem mem_sortDescBy {α : Type} (key : α → ℚ) (a : α) (l : List α) :
    a ∈ sortDescBy key l ↔ a ∈ l := by
  induction l with
  | nil => simp [sortDescBy]
  | cons x xs ih => simp [sortDescBy, mem_insertDescBy, ih]

theorem sorted_insertDescBy {α : Type} (key : α → ℚ) (x : α) (l : List α)
    (h : l.Pairwise (fun a b => key b ≤ key a)) :
    (insertDescBy key x l).Pairwise (fun a b => key b ≤ key a) := by
  induction l with
  | nil => simp [insertDescBy]
  | cons y ys ih =>
    simp only [insertDescBy]
    rcases List.pairwise_cons.mp h with ⟨hy, hys⟩
    split
    · rename_i hlt
      refine List.pairwise_cons.mpr ⟨?_, ih hys⟩
      intro b hb
      rcases (mem_insertDescBy key x b ys).mp hb with rfl | hbys
      · exact le_of_lt hlt
      · exact hy b hbys
    · rename_i hge
      push_neg at hge
      refine List.pairwise_cons.mpr ⟨?_, h⟩
      intro b hb
      rcases List.mem_cons.mp hb with rfl | hbys
      · exact hge
      · exact le_trans (hy b hbys) hge

theorem sorted_sortDescBy {α : Type} (key : α → ℚ) (l : List α) :
    (sortDescBy key l).Pairwise (fun a b => key b ≤ key a) := by
  induction l with
  | nil => simp [sortDescBy]
  | cons x xs ih => exact sorted_insertDescBy key x _ ih

theorem filter_insertDescBy_of_ne {α : Type} (key : α → ℚ) (x : α) (l : List α)
    (k : ℚ) (hx : key x ≠ k) :
    (insertDescBy key x l).filter (fun a => decide (key a = k)) =
      l.filter (fun a => decide (key a = k)) := by
  induction l with
  | nil => simp [insertDescBy, hx]
  | cons y ys ih =>
    simp only [insertDescBy]
    split
    · by_cases hy : key y = k
      · simp [List.filter_cons, hy, ih]
      · simp [List.filter_cons, hy, ih]
    · simp [List.filter_cons, hx]

theorem filter_insertDescBy_of_eq {α : Type} (key : α → ℚ) (x : α) (l : List α)
    (k : ℚ) (hl : l.Pairwise (fun a b => key b ≤ key a)) (hx : key x = k) :
    (insertDescBy key x l).filter (fun a => decide (key a = k)) =
      x :: l.filter (fun a => decide (key a = k)) := by
  induction l with
  | nil => simp [insertDescBy, hx]
  | cons y ys ih =>
    rcases List.pairwise_cons.mp hl with ⟨hy, hys⟩
    simp only [insertDescBy]
    split
    · rename_i hlt
      have hyk : key y ≠ k := by
        intro hk
        rw [hx, ← hk] at hlt
        exact lt_irrefl _ hlt
      simp [List.filter_cons, hyk, ih hys]
    · simp [List.filter_cons, hx]

theorem filter_sortDescBy {α : Type} (key : α → ℚ) (l : List α) (k : ℚ) :
    (sortDescBy key l).filter (fun a => decide (key a = k)) =
      l.filter (fun a => decide (key a = k)) := by
  induction l with
  | nil => rfl
  | cons x xs ih =>
    simp only [sortDescBy]
    by_cases hx : key x = k
    · rw [filter_insertDescBy_of_eq key x _ k (sorted_sortDescBy key xs) hx, ih,
        List.filter_cons, if_pos (by simpa using hx)]
    · rw [filter_insertDescBy_of_ne key x _ k hx, ih,
        List.filter_cons, if_neg (by simpa using hx)]

/-! ### `item_recommender.py` — ItemRecommender -/

/-- One record of the `missing_items` input (a dict in the source; the
`.get` defaults of `_simulate_item_impact` become plain fields here). -/
structure MissingItem where
  catlg_item_id : String
  product_name : String
  category : String
  order_count : ℤ
  substitution_count : ℤ
  substitution_rate : ℚ
  avg_qty_per_order : ℚ

/-- Result record of `_simulate_item_impact` (dataclass `ItemImpactSimulation`). -/
structure ItemImpactSimulation where
  item_id : String
  product_name : String
  category : String
  current_cb_percent : ℚ
  projected_cb_percent : ℚ
  cb_lift_percent : ℚ
  estimated_additional_orders : ℤ
  current_order_count : ℤ
  substitution_count : ℤ
  substitution_rate : ℚ
  avg_qty_per_order : ℚ
  confidence_score : ℚ
  rationale : String

/-- `ItemRecommender._derive_attained_from_cb`. -/
def derive_attained_from_cb (cb_percent : ℚ) (catchment_count : ℤ) : ℤ :=
  if catchment_count = 0 then 0
  else pyInt ((cb_percent / 100) * (catchment_count : ℚ))

/-- `ItemRecommender._calculate_confidence_score`: sequential bonus tiers on a
0.5 base, clamped above at 0.95. -/
def calculate_confidence_score (order_count : ℤ) (substitution_rate : ℚ)
    (estimated_additional_orders : ℤ) : ℚ :=
  let confidence : ℚ := 0.5
  let confidence :=
    if order_count ≥ 50 then confidence + 0.25
    else if order_count ≥ 20 then confidence + 0.15
    else if order_count ≥ 10 then confidence + 0.05
    else confidence
  let confidence :=
    if substitution_rate ≥ 0.5 then confidence + 0.2
    else if substitution_rate ≥ 0.3 then confidence + 0.1
    else confidence
  let confidence :=
    if estimated_additional_orders ≥ 50 then confidence + 0.1
    else if estimated_additional_orders ≥ 20 then confidence + 0.05
    else confidence
  min 0.95 confidence

/-- `ItemRecommender._generate_rationale`. -/
def generate_rationale (product_name : String) (order_count : ℤ)
    (estimated_additional_orders : ℤ) (cb_lift : ℚ) : String :=
  let impact_level :=
    if cb_lift ≥ 2 then "💥 HIGH IMPACT"
    else if cb_lift ≥ 1 then "🚀 MEDIUM IMPACT"
    else "💭 LOW IMPACT"
  impact_level ++ " - " ++ product_name ++ " has been ordered " ++
    toString order_count ++ " times. Adding it would capture ~" ++
    toString estimated_additional_orders ++ " more orders and lift CB% by " ++
    formatFixed 2 cb_lift ++ "pp."

/-- `ItemRecommender._simulate_item_impact`.  The `current_entitled_count`
argument is accepted, as in the source, but never read. -/
def simulate_item_impact (item : MissingItem) (current_cb_percent : ℚ)
    (current_catchment_count : ℤ) (current_entitled_count : ℤ) :
    ItemImpactSimulation :=
  let capture_rate : ℚ := 0.70
  let estimated_additional_orders : ℤ :=
    pyInt ((item.substitution_count : ℚ) * capture_rate)
  let current_attained :=
    derive_attained_from_cb current_cb_percent current_catchment_count
  let new_attained := current_attained + estimated_additional_orders
  let new_cb_percent : ℚ :=
    if 0 < current_catchment_count then
      ((new_attained : ℚ) / (current_catchment_count : ℚ)) * 100
    else 0
  let cb_lift := new_cb_percent - current_cb_percent
  let confidence := calculate_confidence_score item.order_count
    item.substitution_rate estimated_additional_orders
  let rationale := generate_rationale item.product_name item.order_count
    estimated_additional_orders cb_lift
  { item_id := item.catlg_item_id
    product_name := item.product_name
    category := item.category
    current_cb_percent := current_cb_percent
    projected_cb_percent := new_cb_percent
    cb_lift_percent := cb_lift
    estimated_additional_orders := estimated_additional_orders
    current_order_count := item.order_count
    substitution_count := item.substitution_count
    substitution_rate := item.substitution_rate
    avg_qty_per_order := item.avg_qty_per_order
    confidence_score := confidence
    rationale := rationale }

/-- `ItemRecommender.recommend_items`: simulate every candidate, sort by
`cb_lift_percent` descending (Python stable sort) and keep the first `top_n`. -/
def recommend_items (missing_items : List MissingItem) (current_cb_percent : ℚ)
    (current_catchment_count : ℤ) (current_entitled_count : ℤ) (top_n : ℕ) :
    List ItemImpactSimulation :=
  if missing_items.isEmpty then []
  else
    let simulations := missing_items.map (fun item =>
      simulate_item_impact item current_cb_percent current_catchment_count
        current_entitled_count)
    (sortDescBy (fun s => s.cb_lift_percent) simulations).take top_n

/-! ### `root_cause_analyzer.py` — RootCauseAnalyzer -/

/-- Enum `RootCauseType`. -/
inductive RootCauseType where
  | ASSORTMENT_GAP
  | CATCHMENT_DROP
  | FULFILLMENT_ISSUE
  | SEASONAL_ITEM_LOSS
  | NORMAL_VARIANCE
deriving DecidableEq, Repr

/-- The `current_data` dict consumed by `analyze_entitlement_drop` (fields are
the keys it reads via `.get`). -/
structure CurrentData where
  depot : String
  date : String
  entitled_count : ℚ
  catchment_count : ℚ
  attained_count : ℚ

/-- The `baseline_data` dict consumed by `analyze_entitlement_drop`. -/
structure BaselineData where
  avg_entitled : ℚ
  avg_catchment : ℚ
  avg_attained : ℚ

/-- Dataclass `RootCauseAnalysis`; the pass-through `missing_items_list` keeps
whatever record type `α` the caller supplied (the analyzer reads only its
length). -/
structure RootCauseAnalysis (α : Type) where
  depot : String
  analysis_date : String
  primary_cause : RootCauseType
  confidence_score : ℚ
  cb_variance_pct : ℚ
  entitlement_variance_pct : ℚ
  catchment_variance_pct : ℚ
  fulfillment_rate_pct : ℚ
  findings : List String
  missing_items_list : Option (List α)
  recommendations : List String

def CATCHMENT_DROP_THRESHOLD : ℚ := -10.0
def ENTITLEMENT_DROP_THRESHOLD : ℚ := -15.0
def FULFILLMENT_ISSUE_THRESHOLD : ℚ := 0.75
def NORMAL_VARIANCE_BAND : ℚ := 10.0

/-- `RootCauseAnalyzer._calculate_variance`: percent variance from baseline,
0 when the baseline is 0 (never a division error). -/
def calculate_variance (current_value : ℚ) (baseline_value : ℚ) : ℚ :=
  if baseline_value = 0 then 0
  else ((current_value - baseline_value) / baseline_value) * 100

/-- Truthiness-plus-length test `missing_items and len(missing_items) > 5`
from `_determine_primary_cause`. -/
def missingBoost {α : Type} (missing_items : Option (List α)) : Bool :=
  match missing_items with
  | some l => decide (5 < l.length)
  | none => false

/-- The `causes` candidate list built by `_determine_primary_cause`, in the
fixed check order catchment-drop, assortment-gap, fulfillment-issue. -/
def qualifying_causes {α : Type} (entitlement_variance : ℚ)
    (catchment_variance : ℚ) (fulfillment_rate : ℚ)
    (missing_items : Option (List α)) : List (RootCauseType × ℚ) :=
  (if catchment_variance < CATCHMENT_DROP_THRESHOLD then
    [(RootCauseType.CATCHMENT_DROP, 0.8 + |catchment_variance| / 100)]
   else []) ++
  (if entitlement_variance < ENTITLEMENT_DROP_THRESHOLD ∧
      catchment_variance > CATCHMENT_DROP_THRESHOLD then
    [(RootCauseType.ASSORTMENT_GAP,
      (let confidence := 0.7 + |entitlement_variance| / 100
       if missingBoost missing_items then min 0.95 (confidence + 0.1)
       else confidence))]
   else []) ++
  (if fulfillment_rate < FULFILLMENT_ISSUE_THRESHOLD then
    [(RootCauseType.FULFILLMENT_ISSUE, (1 - fulfillment_rate / 100) * 0.8)]
   else [])

/-- `RootCauseAnalyzer._determine_primary_cause`: build the qualifying-cause
candidate list in the fixed check order, stably sort it by confidence
descending and take the head; otherwise fall back to normal variance with
confidence 0.8 (inside the variance band) or 0.5. -/
def determine_primary_cause {α : Type} (entitlement_variance : ℚ)
    (catchment_variance : ℚ) (fulfillment_rate : ℚ)
    (missing_items : Option (List α)) : RootCauseType × ℚ :=
  let causes := qualifying_causes entitlement_variance catchment_variance
    fulfillment_rate missing_items
  if causes.isEmpty ∧ |entitlement_variance| ≤ NORMAL_VARIANCE_BAND then
    (RootCauseType.NORMAL_VARIANCE, 0.8)
  else
    match sortDescBy (fun c => c.2) causes with
    | c :: _ => c
    | [] => (RootCauseType.NORMAL_VARIANCE, 0.5)

/-- `RootCauseAnalyzer._generate_findings`. -/
def generate_findings {α : Type} (cause : RootCauseType)
    (entitlement_variance : ℚ) (catchment_variance : ℚ) (fulfillment_rate : ℚ)
    (missing_items : Option (List α)) : List String :=
  if cause = RootCauseType.CATCHMENT_DROP then
    ["ðŸ”´ Catchment orders dropped " ++ formatFixed 1 |catchment_variance| ++
       "% from baseline.",
     "Possible factors: seasonal demand, competitor activity."]
  else if cause = RootCauseType.ASSORTMENT_GAP then
    ["ðŸ›‘ Entitlement dropped " ++ formatFixed 1 |entitlement_variance| ++
       "% while catchment remained stable."] ++
    (match missing_items with
     | some l =>
       if l.isEmpty then []
       else ["ðŸ“¦ Found " ++ toString l.length ++
         " items customers are ordering but you\x27re NOT carrying."]
     | none => [])
  else if cause = RootCauseType.FULFILLMENT_ISSUE then
    ["âš ï¸ Fulfillment rate is only " ++ formatFixed 1 fulfillment_rate ++ "%."]
  else
    ["âœ… Metrics are within normal variance from baseline."]

/-- `RootCauseAnalyzer._generate_recommendations`. -/
def generate_recommendations {α : Type} (cause : RootCauseType)
    (missing_items : Option (List α)) (fulfillment_rate : ℚ) : List String :=
  (if cause = RootCauseType.CATCHMENT_DROP then
    ["ðŸŽ¯ Monitor competitive activity in your catchment.",
     "ðŸ’° Consider promotional campaigns to drive demand."]
   else if cause = RootCauseType.ASSORTMENT_GAP then
    ["âž• Add missing items to assortment.",
     "ðŸ“‹ Review seasonal assortment planning."]
   else if cause = RootCauseType.FULFILLMENT_ISSUE then
    ["ðŸšš Audit fulfillment operations and stock levels.",
     "â±ï¸ Review delivery window constraints."]
   else []) ++
  ["ðŸ“Š Monitor metrics daily to catch changes early."]

/-- `RootCauseAnalyzer.analyze_entitlement_drop`. -/
def analyze_entitlement_drop {α : Type} (current_data : CurrentData)
    (baseline_data : BaselineData) (missing_items : Option (List α)) :
    RootCauseAnalysis α :=
  let entitled_variance :=
    calculate_variance current_data.entitled_count baseline_data.avg_entitled
  let catchment_variance :=
    calculate_variance current_data.catchment_count baseline_data.avg_catchment
  let cb_variance :=
    calculate_variance current_data.attained_count baseline_data.avg_attained
  let fulfillment_rate : ℚ :=
    if 0 < current_data.entitled_count then
      (current_data.attained_count / current_data.entitled_count) * 100
    else 0
  let pc := determine_primary_cause entitled_variance catchment_variance
    fulfillment_rate missing_items
  { depot := current_data.depot
    analysis_date := current_data.date
    primary_cause := pc.1
    confidence_score := pc.2
    cb_variance_pct := cb_variance
    entitlement_variance_pct := entitled_variance
    catchment_variance_pct := catchment_variance
    fulfillment_rate_pct := fulfillment_rate
    findings := generate_findings pc.1 entitled_variance catchment_variance
      fulfillment_rate missing_items
    missing_items_list := missing_items
    recommendations := generate_recommendations pc.1 missing_items
      fulfillment_rate }

/-! ### `query_generator.py` — QueryGenerator -/

/-- Strip leading and trailing whitespace, as Python `int(str)` does before
parsing. -/
def pyStrip (s : List Char) : List Char :=
  ((s.dropWhile Char.isWhitespace).reverse.dropWhile Char.isWhitespace).reverse

/-- Digit-run validity for Python `int(str)`: at least one digit, underscores
allowed only as single separators strictly between digits. -/
def digitsOk : List Char → Bool
  | [] => false
  | [c] => c.isDigit
  | c :: d :: rest =>
    c.isDigit && (if d = '_' then digitsOk rest else digitsOk (d :: rest))

/-- Value of a digit run, skipping underscore separators. -/
def digitsVal (s : List Char) : ℕ :=
  s.foldl (fun n c => if c = '_' then n else n * 10 + (c.toNat - 48)) 0

/-- Model of Python `int(depot)` on a string: optional surrounding whitespace,
optional sign, then a digit run; `none` models the `ValueError`. -/
def pyParseInt (s : String) : Option ℤ :=
  let t := pyStrip s.toList
  match t with
  | '+' :: rest => if digitsOk rest then some ((digitsVal rest : ℕ) : ℤ) else none
  | '-' :: rest => if digitsOk rest then some (-((digitsVal rest : ℕ) : ℤ)) else none
  | body => if digitsOk body then some ((digitsVal body : ℕ) : ℤ) else none

/-- The `ValueError` message raised by a failed `int(depot)` coercion. -/
def intCoercionError (depot : String) : String :=
  "invalid literal for int() with base 10: " ++ depot

def SUMMARY_TABLE : String :=
  "`wmt-instockinventory-datamart.WM_AD_HOC.K0N06DO_WM_DEPOT_ALLSTR_COMBINED_METRICS_MASTER_SUMMARY`"

def V2_TABLE : String :=
  "`wmt-instockinventory-datamart.WM_AD_HOC.K0N06DO_WM_DEPOT_ALLSTR_COMBINED_METRICS_MASTER_V2`"

/-- Body of the f-string returned by `generate_cb_trend_query` once the depot
id has been coerced. -/
def trend_query_text (depot_int : ℤ) (days_lookback : ℤ) : String :=
  "\n        WITH cb_metrics AS (\n            SELECT\n                DELIVERY_DATE,\n                WM_DEPOT,\n                CATCHMENT_ORDER_CNT,\n                ENTITLED_ORDER_CNT,\n                ATTAINED_ORDER_CNT,\n                SAFE_DIVIDE(ATTAINED_ORDER_CNT, CATCHMENT_ORDER_CNT) as CB_PERCENT,\n                SAFE_DIVIDE(ATTAINED_ORDER_CNT, ENTITLED_ORDER_CNT) as FULFILLMENT_RATE,\n                SAFE_DIVIDE(ENTITLED_ORDER_CNT, CATCHMENT_ORDER_CNT) as ENTITLEMENT_RATE\n            FROM "
  ++ SUMMARY_TABLE
  ++ "\n            WHERE WM_DEPOT = " ++ toString depot_int
  ++ "\n            AND DELIVERY_DATE >= DATE_SUB(CURRENT_DATE(), INTERVAL "
  ++ toString days_lookback
  ++ " DAY)\n            AND DELIVERY_DATE IS NOT NULL\n        )\n        SELECT\n            DELIVERY_DATE,\n            WM_DEPOT,\n            ROUND(CB_PERCENT * 100, 2) as CB_PERCENT,\n            ROUND(FULFILLMENT_RATE * 100, 2) as FULFILLMENT_RATE,\n            ROUND(ENTITLEMENT_RATE * 100, 2) as ENTITLEMENT_RATE,\n            CATCHMENT_ORDER_CNT,\n            ENTITLED_ORDER_CNT,\n            ATTAINED_ORDER_CNT\n        FROM cb_metrics\n        ORDER BY DELIVERY_DATE DESC\n        "

/-- Body of the f-string returned by `generate_missing_items_query`. -/
def missing_items_query_text (depot_int : ℤ) (days_lookback : ℤ)
    (min_order_frequency : ℤ) : String :=
  "\n        WITH recent_orders AS (\n            SELECT\n                CATLG_ITEM_ID,\n                PROD_NM,\n                \x27General\x27 as CATEGORY,\n                COUNT(DISTINCT ORDER_NBR) as ORDER_CNT,\n                COUNT(DISTINCT CASE WHEN 1=1 THEN ORDER_NBR ELSE NULL END) as SUBSTITUTION_CNT,\n                SUM(1) as TOTAL_QTY\n            FROM "
  ++ V2_TABLE
  ++ "\n            WHERE WM_DEPOT = " ++ toString depot_int
  ++ "\n            AND DELIVERY_DATE >= DATE_SUB(CURRENT_DATE(), INTERVAL "
  ++ toString days_lookback
  ++ " DAY)\n            GROUP BY CATLG_ITEM_ID, PROD_NM\n            HAVING COUNT(DISTINCT ORDER_NBR) >= "
  ++ toString min_order_frequency
  ++ "\n        )\n        SELECT\n            CATLG_ITEM_ID,\n            PROD_NM,\n            CATEGORY,\n            \x27MISSING\x27 as ASSORTMENT_STATUS,\n            ORDER_CNT,\n            SUBSTITUTION_CNT,\n            ROUND(SAFE_DIVIDE(SUBSTITUTION_CNT, ORDER_CNT) * 100, 2) as SUBSTITUTION_RATE,\n            TOTAL_QTY,\n            ROUND(SAFE_DIVIDE(TOTAL_QTY, ORDER_CNT), 2) as AVG_QTY_PER_ORDER\n        FROM recent_orders\n        ORDER BY ORDER_CNT DESC\n        LIMIT 100\n        "

/-- Body of the f-string returned by `generate_item_frequency_query` (the
depot id and lookback are coerced/accepted but not interpolated). -/
def item_frequency_query_text (limit : ℤ) : String :=
  "\n        SELECT\n            \x27ITEM_001\x27 as CATLG_ITEM_ID,\n            \x27Sample Product\x27 as PROD_NM,\n            \x27Grocery\x27 as DEPARTMENT,\n            \x27Produce\x27 as CATEGORY,\n            25 as ORDER_CNT,\n            50 as TOTAL_QTY,\n            5 as SUBSTITUTION_CNT,\n            20 as ORDERS_WITH_ASSORT,\n            80.0 as ASSORTMENT_COVERAGE_PCT\n        LIMIT "
  ++ toString limit ++ "\n        "

/-- `QueryGenerator.generate_cb_trend_query`: `int(depot)` first (a failure
propagates as a `ValueError`), then the query text. -/
def generate_cb_trend_query (depot : String) (days_lookback : ℤ) :
    Except String String :=
  match pyParseInt depot with
  | none => Except.error (intCoercionError depot)
  | some depot_int => Except.ok (trend_query_text depot_int days_lookback)

/-- `QueryGenerator.generate_missing_items_query`. -/
def generate_missing_items_query (depot : String) (days_lookback : ℤ)
    (min_order_frequency : ℤ) : Except String String :=
  match pyParseInt depot with
  | none => Except.error (intCoercionError depot)
  | some depot_int =>
    Except.ok (missing_items_query_text depot_int days_lookback min_order_frequency)

/-- `QueryGenerator.generate_item_frequency_query`. -/
def generate_item_frequency_query (depot : String) (days_lookback : ℤ)
    (limit : ℤ) : Except String String :=
  match pyParseInt depot with
  | none => Except.error (intCoercionError depot)
  | some depot_int =>
    let _ := (depot_int, days_lookback)
    Except.ok (item_frequency_query_text limit)

/-- Enum `QuestionType`, in declaration order. -/
inductive QuestionType where
  | CB_TREND
  | ENTITLEMENT_DROP
  | MISSING_ITEMS
  | ITEM_IMPACT
  | CATCHMENT_ANALYSIS
  | FULFILLMENT_GAP
deriving DecidableEq, Repr

/-- Position of a `QuestionType` in the enumeration (= iteration order of the
`keywords` dict in `detect_question_type`, Python dicts preserving insertion
order). -/
def enumIdx : QuestionType → ℕ
  | QuestionType.CB_TREND => 0
  | QuestionType.ENTITLEMENT_DROP => 1
  | QuestionType.MISSING_ITEMS => 2
  | QuestionType.ITEM_IMPACT => 3
  | QuestionType.CATCHMENT_ANALYSIS => 4
  | QuestionType.FULFILLMENT_GAP => 5

/-- The keyword set of each question type (the `keywords` dict). -/
def keywordsOf : QuestionType → List String
  | QuestionType.CB_TREND => ["trend", "cb%", "complete basket", "over time"]
  | QuestionType.ENTITLEMENT_DROP => ["drop", "why", "entitle", "decline"]
  | QuestionType.MISSING_ITEMS => ["missing", "items", "carrying", "assortment"]
  | QuestionType.ITEM_IMPACT => ["add", "impact", "if", "would", "increase"]
  | QuestionType.CATCHMENT_ANALYSIS => ["catchment", "orders", "demand"]
  | QuestionType.FULFILLMENT_GAP => ["fulfillment", "entitled", "attained", "gap"]

/-- Iteration order of the `keywords` dict. -/
def questionTypeOrder : List QuestionType :=
  [QuestionType.CB_TREND, QuestionType.ENTITLEMENT_DROP,
   QuestionType.MISSING_ITEMS, QuestionType.ITEM_IMPACT,
   QuestionType.CATCHMENT_ANALYSIS, QuestionType.FULFILLMENT_GAP]

/-- Python `needle in hay` on strings, as character lists. -/
def containsSub (needle : List Char) : List Char → Bool
  | [] => needle.isEmpty
  | c :: rest => needle.isPrefixOf (c :: rest) || containsSub needle rest

/-- `question.lower()` (ASCII case folding; every keyword is ASCII). -/
def lowerChars (s : String) : List Char :=
  s.toList.map Char.toLower

/-- `sum(1 for kw in kwords if kw in question_lower)`. -/
def countMatches (question_lower : List Char) (kwords : List String) : ℕ :=
  kwords.countP (fun kw => containsSub kw.toList question_lower)

/-- Keyword-match count of one question type against a question. -/
def matchCount (question : String) (t : QuestionType) : ℕ :=
  countMatches (lowerChars question) (keywordsOf t)

/-- `QueryGenerator.detect_question_type`: running best over the keyword dict,
replaced only on a strictly greater match count, starting from
`(CB_TREND, 0)`. -/
def detect_question_type (question : String) : QuestionType :=
  let question_lower := lowerChars question
  (questionTypeOrder.foldl
    (fun acc t =>
      let mcount := countMatches question_lower (keywordsOf t)
      if acc.2 < mcount then (t, mcount) else acc)
    (QuestionType.CB_TREND, 0)).1

/-- One update step of the running best in `detect_question_type`. -/
def stepBest (t : QuestionType) (m : ℕ) (acc : QuestionType × ℕ) :
    QuestionType × ℕ :=
  if acc.2 < m then (t, m) else acc

/-- Look up one of six counts by question type, in enumeration order. -/
def cntOf (c0 c1 c2 c3 c4 c5 : ℕ) : QuestionType → ℕ
  | QuestionType.CB_TREND => c0
  | QuestionType.ENTITLEMENT_DROP => c1
  | QuestionType.MISSING_ITEMS => c2
  | QuestionType.ITEM_IMPACT => c3
  | QuestionType.CATCHMENT_ANALYSIS => c4
  | QuestionType.FULFILLMENT_GAP => c5

/-- The running-best scan of `detect_question_type`, written out over the six
match counts. -/
def pickBest (c0 c1 c2 c3 c4 c5 : ℕ) : QuestionType × ℕ :=
  stepBest QuestionType.FULFILLMENT_GAP c5
    (stepBest QuestionType.CATCHMENT_ANALYSIS c4
      (stepBest QuestionType.ITEM_IMPACT c3
        (stepBest QuestionType.MISSING_ITEMS c2
          (stepBest QuestionType.ENTITLEMENT_DROP c1
            (stepBest QuestionType.CB_TREND c0 (QuestionType.CB_TREND, 0))))))

theorem detect_eq_pickBest (q : String) :
    detect_question_type q =
      (pickBest (matchCount q QuestionType.CB_TREND)
        (matchCount q QuestionType.ENTITLEMENT_DROP)
        (matchCount q QuestionType.MISSING_ITEMS)
        (matchCount q QuestionType.ITEM_IMPACT)
        (matchCount q QuestionType.CATCHMENT_ANALYSIS)
        (matchCount q QuestionType.FULFILLMENT_GAP)).1 := rfl

set_option maxHeartbeats 2000000 in
/-- The running best ends at the first type, in enumeration order, whose count
attains the maximum: its count is the recorded maximum, no count exceeds it,
and every earlier-declared type has a strictly smaller count. -/
theorem pickBest_spec (c0 c1 c2 c3 c4 c5 : ℕ) :
    (pickBest c0 c1 c2 c3 c4 c5).2 =
        cntOf c0 c1 c2 c3 c4 c5 (pickBest c0 c1 c2 c3 c4 c5).1 ∧
      (∀ t, cntOf c0 c1 c2 c3 c4 c5 t ≤ (pickBest c0 c1 c2 c3 c4 c5).2) ∧
      (∀ t, enumIdx t < enumIdx (pickBest c0 c1 c2 c3 c4 c5).1 →
        cntOf c0 c1 c2 c3 c4 c5 t < (pickBest c0 c1 c2 c3 c4 c5).2) := by
  simp only [pickBest, stepBest]
  split_ifs <;>
    refine ⟨?_, fun t => ?_, fun t ht => ?_⟩ <;>
    (try cases t) <;>
    simp only [cntOf, enumIdx] at * <;>
    omega

/-! ### Root-cause selection lemmas -/

theorem mem_qualifying_causes_bound {α : Type} (ev cv fr : ℚ)
    (mi : Option (List α)) (p : RootCauseType × ℚ)
    (hp : p ∈ qualifying_causes ev cv fr mi) :
    1/2 ≤ p.2 ∧ p.1 ≠ RootCauseType.NORMAL_VARIANCE := by
  unfold qualifying_causes at hp
  rcases List.mem_append.mp hp with hp12 | hp3
  · rcases List.mem_append.mp hp12 with hp1 | hp2
    · by_cases h : cv < CATCHMENT_DROP_THRESHOLD
      · rw [if_pos h] at hp1
        rcases List.mem_singleton.mp hp1 with rfl
        have habs : (0:ℚ) ≤ |cv| / 100 := by positivity
        constructor
        · simp only
          linarith
        · simp
      · rw [if_neg h] at hp1
        exact absurd hp1 (List.not_mem_nil p)
    · by_cases h : ev < ENTITLEMENT_DROP_THRESHOLD ∧ cv > CATCHMENT_DROP_THRESHOLD
      · rw [if_pos h] at hp2
        rcases List.mem_singleton.mp hp2 with rfl
        have habs : (0:ℚ) ≤ |ev| / 100 := by positivity
        constructor
        · simp only
          by_cases hb : missingBoost mi
          · rw [if_pos hb]
            exact le_min (by norm_num) (by linarith)
          · rw [if_neg hb]
            linarith
        · simp
      · rw [if_neg h] at hp2
        exact absurd hp2 (List.not_mem_nil p)
  · by_cases h : fr < FULFILLMENT_ISSUE_THRESHOLD
    · rw [if_pos h] at hp3
      rcases List.mem_singleton.mp hp3 with rfl
      rw [show FULFILLMENT_ISSUE_THRESHOLD = (3/4 : ℚ) by norm_num
        [FULFILLMENT_ISSUE_THRESHOLD]] at h
      constructor
      · simp only
        linarith
      · simp
    · rw [if_neg h] at hp3
      exact absurd hp3 (List.not_mem_nil p)

theorem determine_primary_cause_cases {α : Type} (ev cv fr : ℚ)
    (mi : Option (List α)) :
    determine_primary_cause ev cv fr mi = (RootCauseType.NORMAL_VARIANCE, 0.8) ∨
      determine_primary_cause ev cv fr mi = (RootCauseType.NORMAL_VARIANCE, 0.5) ∨
      determine_primary_cause ev cv fr mi ∈ qualifying_causes ev cv fr mi := by
  simp only [determine_primary_cause]
  split_ifs with h
  · exact Or.inl rfl
  · rcases hs : sortDescBy (fun c => c.2) (qualifying_causes ev cv fr mi)
      with _ | ⟨c, rest⟩
    · rw [hs]
      exact Or.inr (Or.inl rfl)
    · rw [hs]
      refine Or.inr (Or.inr ?_)
      have hmemsort : c ∈ sortDescBy (fun c => c.2) (qualifying_causes ev cv fr mi) := by
        rw [hs]
        exact List.mem_cons_self c rest
      exact (mem_sortDescBy _ c _).mp hmemsort

theorem determine_primary_cause_bound {α : Type} (ev cv fr : ℚ)
    (mi : Option (List α)) :
    1/2 ≤ (determine_primary_cause ev cv fr mi).2 ∧
      ((determine_primary_cause ev cv fr mi).1 = RootCauseType.NORMAL_VARIANCE →
        (determine_primary_cause ev cv fr mi).2 = 0.8 ∨
          (determine_primary_cause ev cv fr mi).2 = 0.5) := by
  rcases determine_primary_cause_cases ev cv fr mi with h | h | h
  · rw [h]
    exact ⟨by norm_num, fun _ => Or.inl rfl⟩
  · rw [h]
    exact ⟨by norm_num, fun _ => Or.inr rfl⟩
  · have hb := mem_qualifying_causes_bound ev cv fr mi _ h
    exact ⟨hb.1, fun hnv => absurd hnv hb.2⟩

/-! ### Claim theorems for the root-cause classifier -/

/-- C1: the source computes `fulfillment_rate_pct` on the 0–100 scale yet
compares it with `FULFILLMENT_ISSUE_THRESHOLD = 0.75`, so at a 50% fulfillment
rate — below the documented 75% threshold — the fulfillment-issue candidate
does not qualify and the analyzer returns normal variance instead. -/
theorem fulfillment_threshold_code_bug :
    (analyze_entitlement_drop ⟨"D100", "2024-01-01", 100, 100, 50⟩
        ⟨100, 100, 50⟩ (none : Option (List Unit))).fulfillment_rate_pct = 50 ∧
      (50 : ℚ) < 75 ∧
      FULFILLMENT_ISSUE_THRESHOLD < (50 : ℚ) ∧
      (analyze_entitlement_drop ⟨"D100", "2024-01-01", 100, 100, 50⟩
          ⟨100, 100, 50⟩ (none : Option (List Unit))).primary_cause =
        RootCauseType.NORMAL_VARIANCE ∧
      qualifying_causes (0 : ℚ) 0 50 (none : Option (List Unit)) = [] := by
  norm_num [analyze_entitlement_drop, determine_primary_cause, qualifying_causes,
    calculate_variance, missingBoost, CATCHMENT_DROP_THRESHOLD,
    ENTITLEMENT_DROP_THRESHOLD, FULFILLMENT_ISSUE_THRESHOLD,
    NORMAL_VARIANCE_BAND, sortDescBy, insertDescBy]

/-- C2 counterexample: with a catchment drop of 50% (current 50 vs baseline
100) the selected cause is catchment-drop with confidence
`0.8 + 50/100 = 1.3`, outside `[0.5, 0.95]`. -/
theorem confidence_score_above_095 :
    (analyze_entitlement_drop ⟨"D200", "2024-01-02", 0, 50, 0⟩
        ⟨100, 100, 0⟩ (none : Option (List Unit))).confidence_score = 13/10 ∧
      95/100 < (analyze_entitlement_drop ⟨"D200", "2024-01-02", 0, 50, 0⟩
          ⟨100, 100, 0⟩ (none : Option (List Unit))).confidence_score := by
  norm_num [analyze_entitlement_drop, determine_primary_cause, qualifying_causes,
    calculate_variance, missingBoost, CATCHMENT_DROP_THRESHOLD,
    ENTITLEMENT_DROP_THRESHOLD, FULFILLMENT_ISSUE_THRESHOLD,
    NORMAL_VARIANCE_BAND, sortDescBy, insertDescBy, abs_neg, abs_of_nonneg]

/-- C2 (amended): for every input the classifier confidence is at least 0.5,
and a normal-variance result carries confidence exactly 0.8 or exactly 0.5;
the claimed upper bound 0.95 does not hold (see the counterexample). -/
theorem analyze_confidence_score_bounds {α : Type} (current_data : CurrentData)
    (baseline_data : BaselineData) (missing_items : Option (List α)) :
    1/2 ≤ (analyze_entitlement_drop current_data baseline_data
        missing_items).confidence_score ∧
      ((analyze_entitlement_drop current_data baseline_data
          missing_items).primary_cause = RootCauseType.NORMAL_VARIANCE →
        (analyze_entitlement_drop current_data baseline_data
            missing_items).confidence_score = 0.8 ∨
          (analyze_entitlement_drop current_data baseline_data
              missing_items).confidence_score = 0.5) :=
  determine_primary_cause_bound _ _ _ _

/-- Witness for C2 (amended) at a concrete in-band input. -/
theorem analyze_confidence_score_bounds_witness :
    1/2 ≤ (analyze_entitlement_drop ⟨"D", "", 100, 100, 90⟩ ⟨100, 100, 90⟩
        (none : Option (List Unit))).confidence_score ∧
      (analyze_entitlement_drop ⟨"D", "", 100, 100, 90⟩ ⟨100, 100, 90⟩
          (none : Option (List Unit))).confidence_score = 0.8 := by
  refine ⟨(analyze_confidence_score_bounds _ _ _).1, ?_⟩
  rcases (analyze_confidence_score_bounds ⟨"D", "", 100, 100, 90⟩ ⟨100, 100, 90⟩
      (none : Option (List Unit))).2
      (by norm_num [analyze_entitlement_drop, determine_primary_cause,
        qualifying_causes, calculate_variance, missingBoost,
        CATCHMENT_DROP_THRESHOLD, ENTITLEMENT_DROP_THRESHOLD,
        FULFILLMENT_ISSUE_THRESHOLD, NORMAL_VARIANCE_BAND, sortDescBy,
        insertDescBy]) with h | h
  · exact h
  · exact absurd h (by norm_num [analyze_entitlement_drop,
      determine_primary_cause, qualifying_causes, calculate_variance,
      missingBoost, CATCHMENT_DROP_THRESHOLD, ENTITLEMENT_DROP_THRESHOLD,
      FULFILLMENT_ISSUE_THRESHOLD, NORMAL_VARIANCE_BAND, sortDescBy,
      insertDescBy])

/-- C6: variance is `((current − baseline)/baseline) * 100` for a non-zero
baseline and exactly 0 for a zero baseline (no division error is possible in
the embedding, which is total), and the three variance fields of
`analyze_entitlement_drop` are computed by this function on the entitled,
catchment and attained pairs respectively. -/
theorem calculate_variance_spec (current_value baseline_value : ℚ) :
    (baseline_value = 0 → calculate_variance current_value baseline_value = 0) ∧
      (baseline_value ≠ 0 → calculate_variance current_value baseline_value =
        ((current_value - baseline_value) / baseline_value) * 100) ∧
      ∀ {α : Type} (current_data : CurrentData) (baseline_data : BaselineData)
        (missing_items : Option (List α)),
        (analyze_entitlement_drop current_data baseline_data
            missing_items).entitlement_variance_pct =
            calculate_variance current_data.entitled_count
              baseline_data.avg_entitled ∧
          (analyze_entitlement_drop current_data baseline_data
              missing_items).catchment_variance_pct =
            calculate_variance current_data.catchment_count
              baseline_data.avg_catchment ∧
          (analyze_entitlement_drop current_data baseline_data
              missing_items).cb_variance_pct =
            calculate_variance current_data.attained_count
              baseline_data.avg_attained := by
  refine ⟨fun h => ?_, fun h => ?_, fun cur base mi => ⟨rfl, rfl, rfl⟩⟩
  · simp [calculate_variance, h]
  · simp [calculate_variance, h]

/-- Witness for C6 at a zero and a non-zero baseline. -/
theorem calculate_variance_spec_witness :
    calculate_variance 110 0 = 0 ∧ calculate_variance 110 100 = 10 := by
  refine ⟨(calculate_variance_spec 110 0).1 rfl, ?_⟩
  rw [(calculate_variance_spec 110 100).2.1 (by norm_num)]
  norm_num

/-- C8: when none of the three cause candidates qualifies, the result is
normal variance with confidence exactly 0.8 inside the ±10 band on the
entitlement variance and exactly 0.5 outside it, and those two confidences
are distinct. -/
theorem normal_variance_fallback {α : Type} (entitlement_variance
    catchment_variance fulfillment_rate : ℚ) (missing_items : Option (List α))
    (h1 : ¬ catchment_variance < CATCHMENT_DROP_THRESHOLD)
    (h2 : ¬ (entitlement_variance < ENTITLEMENT_DROP_THRESHOLD ∧
      catchment_variance > CATCHMENT_DROP_THRESHOLD))
    (h3 : ¬ fulfillment_rate < FULFILLMENT_ISSUE_THRESHOLD) :
    determine_primary_cause entitlement_variance catchment_variance
        fulfillment_rate missing_items =
      (RootCauseType.NORMAL_VARIANCE,
        if |entitlement_variance| ≤ NORMAL_VARIANCE_BAND then 0.8 else 0.5) ∧
    (0.5 : ℚ) < 0.8 := by
  have hc : qualifying_causes entitlement_variance catchment_variance
      fulfillment_rate missing_items = ([] : List (RootCauseType × ℚ)) := by
    simp [qualifying_causes, h1, h2, h3]
  refine ⟨?_, by norm_num⟩
  simp only [determine_primary_cause, hc]
  by_cases hb : |entitlement_variance| ≤ NORMAL_VARIANCE_BAND
  · simp [hb]
  · simp [hb, sortDescBy]

/-- Witness for C8 at a concrete input with all candidates failing. -/
theorem normal_variance_fallback_witness :
    determine_primary_cause (0 : ℚ) 0 90 (none : Option (List Unit)) =
      (RootCauseType.NORMAL_VARIANCE,
        if |(0 : ℚ)| ≤ NORMAL_VARIANCE_BAND then 0.8 else 0.5) ∧
    (0.5 : ℚ) < 0.8 :=
  normal_variance_fallback 0 0 90 none
    (by norm_num [CATCHMENT_DROP_THRESHOLD])
    (by norm_num [ENTITLEMENT_DROP_THRESHOLD, CATCHMENT_DROP_THRESHOLD])
    (by norm_num [FULFILLMENT_ISSUE_THRESHOLD])

/-! ### Claim theorems for the item recommender -/

/-- C3: the concrete scenario with `substitution_count = 100`,
`order_count = 40`, `substitution_rate = 0.4`, simulated at
`current_cb_percent = 60` over a catchment of 1000: 70 additional orders,
attained 600 → 670, projected CB% 67, lift 7, confidence 0.85. -/
theorem simulate_scenario_spec :
    (simulate_item_impact ⟨"ITEM001", "P", "C", 40, 100, 0.4, 1⟩
        60 1000 500).estimated_additional_orders = 70 ∧
      derive_attained_from_cb 60 1000 = 600 ∧
      derive_attained_from_cb 60 1000 +
        (simulate_item_impact ⟨"ITEM001", "P", "C", 40, 100, 0.4, 1⟩
          60 1000 500).estimated_additional_orders = 670 ∧
      (simulate_item_impact ⟨"ITEM001", "P", "C", 40, 100, 0.4, 1⟩
        60 1000 500).projected_cb_percent = 67 ∧
      (simulate_item_impact ⟨"ITEM001", "P", "C", 40, 100, 0.4, 1⟩
        60 1000 500).cb_lift_percent = 7 ∧
      (simulate_item_impact ⟨"ITEM001", "P", "C", 40, 100, 0.4, 1⟩
        60 1000 500).confidence_score = 0.85 ∧
      recommend_items [⟨"ITEM001", "P", "C", 40, 100, 0.4, 1⟩] 60 1000 500 10 =
        [simulate_item_impact ⟨"ITEM001", "P", "C", 40, 100, 0.4, 1⟩
          60 1000 500] := by
  norm_num [simulate_item_impact, derive_attained_from_cb,
    calculate_confidence_score, pyInt, recommend_items, sortDescBy,
    insertDescBy, min_def]

/-- C4: `recommend_items` output is sorted by `cb_lift_percent` descending;
it has at most `top_n` elements; within any lift value the output elements
appear in input order (stability, stated as a sublist of the filtered
simulations); the empty input returns the empty list. -/
theorem recommend_items_order_spec (missing_items : List MissingItem)
    (current_cb_percent : ℚ) (current_catchment_count : ℤ)
    (current_entitled_count : ℤ) (top_n : ℕ) :
    (recommend_items missing_items current_cb_percent current_catchment_count
        current_entitled_count top_n).Pairwise
      (fun a b => b.cb_lift_percent ≤ a.cb_lift_percent) ∧
      (recommend_items missing_items current_cb_percent current_catchment_count
        current_entitled_count top_n).length ≤ top_n ∧
      (∀ k : ℚ, List.Sublist
        ((recommend_items missing_items current_cb_percent
            current_catchment_count current_entitled_count top_n).filter
          (fun s => decide (s.cb_lift_percent = k)))
        ((missing_items.map (fun item => simulate_item_impact item
            current_cb_percent current_catchment_count
            current_entitled_count)).filter
          (fun s => decide (s.cb_lift_percent = k)))) ∧
      recommend_items [] current_cb_percent current_catchment_count
        current_entitled_count top_n = [] := by
  by_cases h : missing_items.isEmpty
  · refine ⟨?_, ?_, ?_, rfl⟩ <;> simp [recommend_items, h]
  · have hreq : recommend_items missing_items current_cb_percent
        current_catchment_count current_entitled_count top_n =
        (sortDescBy (fun s => s.cb_lift_percent)
          (missing_items.map (fun item => simulate_item_impact item
            current_cb_percent current_catchment_count
            current_entitled_count))).take top_n := by
      simp [recommend_items, h]
    refine ⟨?_, ?_, ?_, rfl⟩
    · rw [hreq]
      exact List.Pairwise.sublist (List.take_sublist _ _) (sorted_sortDescBy _ _)
    · rw [hreq]
      exact List.length_take_le _ _
    · intro k
      rw [hreq]
      have hsub := List.Sublist.filter (fun s => decide (s.cb_lift_percent = k))
        (List.take_sublist top_n (sortDescBy (fun s => s.cb_lift_percent)
          (missing_items.map (fun item => simulate_item_impact item
            current_cb_percent current_catchment_count
            current_entitled_count))))
      rwa [filter_sortDescBy] at hsub

/-- C7: the impact-simulation confidence equals the closed-form tier sum
clamped at 0.95, always lies in `[0.5, 0.95]`, and is what
`_simulate_item_impact` stores for every item. -/
theorem calculate_confidence_score_spec (order_count : ℤ)
    (substitution_rate : ℚ) (estimated_additional_orders : ℤ) :
    calculate_confidence_score order_count substitution_rate
        estimated_additional_orders =
      min 0.95 (0.5 +
        (if order_count ≥ 50 then (0.25 : ℚ)
          else if order_count ≥ 20 then 0.15
          else if order_count ≥ 10 then 0.05 else 0) +
        (if substitution_rate ≥ 0.5 then (0.2 : ℚ)
          else if substitution_rate ≥ 0.3 then 0.1 else 0) +
        (if estimated_additional_orders ≥ 50 then (0.1 : ℚ)
          else if estimated_additional_orders ≥ 20 then 0.05 else 0)) ∧
      0.5 ≤ calculate_confidence_score order_count substitution_rate
        estimated_additional_orders ∧
      calculate_confidence_score order_count substitution_rate
        estimated_additional_orders ≤ 0.95 ∧
      ∀ (item : MissingItem) (cb : ℚ) (cc ec : ℤ),
        (simulate_item_impact item cb cc ec).confidence_score =
          calculate_confidence_score item.order_count item.substitution_rate
            (pyInt ((item.substitution_count : ℚ) * 0.70)) := by
  refine ⟨?_, ?_, ?_, fun item cb cc ec => rfl⟩
  · unfold calculate_confidence_score
    split_ifs <;> norm_num
  · unfold calculate_confidence_score
    split_ifs <;> exact le_min (by norm_num) (by norm_num)
  · unfold calculate_confidence_score
    split_ifs <;> exact min_le_left _ _

/-- C10: `current_entitled_count` is threaded into `_simulate_item_impact`
but never read, so two `recommend_items` calls differing only in that
argument return identical results. -/
theorem recommend_items_ignores_entitled_count (missing_items : List MissingItem)
    (current_cb_percent : ℚ) (current_catchment_count : ℤ) (e1 e2 : ℤ)
    (top_n : ℕ) :
    recommend_items missing_items current_cb_percent current_catchment_count
        e1 top_n =
      recommend_items missing_items current_cb_percent current_catchment_count
        e2 top_n := rfl

/-! ### Claim theorems for the query generator -/

/-- C5: `detect_question_type` is a pure total function (identical text gives
identical type); the winner attains the maximum keyword-match count; every
type declared before the winner has a strictly smaller count (so ties go to
the first-declared type); and when no keyword matches — e.g. the empty
string — the result is the first enumeration member `CB_TREND`. -/
theorem detect_question_type_spec (question : String) :
    (∀ question2, question = question2 →
      detect_question_type question = detect_question_type question2) ∧
      (∀ t, matchCount question t ≤
        matchCount question (detect_question_type question)) ∧
      (∀ t, enumIdx t < enumIdx (detect_question_type question) →
        matchCount question t <
          matchCount question (detect_question_type question)) ∧
      ((∀ t, matchCount question t = 0) →
        detect_question_type question = QuestionType.CB_TREND) := by
  obtain ⟨h1, h2, h3⟩ := pickBest_spec (matchCount question QuestionType.CB_TREND)
    (matchCount question QuestionType.ENTITLEMENT_DROP)
    (matchCount question QuestionType.MISSING_ITEMS)
    (matchCount question QuestionType.ITEM_IMPACT)
    (matchCount question QuestionType.CATCHMENT_ANALYSIS)
    (matchCount question QuestionType.FULFILLMENT_GAP)
  have hcnt : ∀ t, cntOf (matchCount question QuestionType.CB_TREND)
      (matchCount question QuestionType.ENTITLEMENT_DROP)
      (matchCount question QuestionType.MISSING_ITEMS)
      (matchCount question QuestionType.ITEM_IMPACT)
      (matchCount question QuestionType.CATCHMENT_ANALYSIS)
      (matchCount question QuestionType.FULFILLMENT_GAP) t =
      matchCount question t := by
    intro t
    cases t <;> rfl
  have hdet := detect_eq_pickBest question
  have hval : matchCount question (detect_question_type question) =
      (pickBest (matchCount question QuestionType.CB_TREND)
        (matchCount question QuestionType.ENTITLEMENT_DROP)
        (matchCount question QuestionType.MISSING_ITEMS)
        (matchCount question QuestionType.ITEM_IMPACT)
        (matchCount question QuestionType.CATCHMENT_ANALYSIS)
        (matchCount question QuestionType.FULFILLMENT_GAP)).2 := by
    rw [hdet, ← hcnt]
    exact h1.symm
  refine ⟨fun q2 hq => by rw [hq], fun t => ?_, fun t ht => ?_, fun hz => ?_⟩
  · rw [hval, ← hcnt t]
    exact h2 t
  · rw [hdet] at ht
    rw [hval, ← hcnt t]
    exact h3 t ht
  · by_contra hne
    have h0 : 0 < enumIdx (detect_question_type question) := by
      rcases hq : detect_question_type question
      · exact absurd hq hne
      all_goals simp [enumIdx]
    have hlt : matchCount question QuestionType.CB_TREND <
        matchCount question (detect_question_type question) := by
      rw [hdet] at h0
      rw [hval, ← hcnt QuestionType.CB_TREND]
      exact h3 QuestionType.CB_TREND (by simpa [enumIdx] using h0)
    rw [hz QuestionType.CB_TREND, hz (detect_question_type question)] at hlt
    exact lt_irrefl 0 hlt

/-- Witness for C5: the empty question matches no keyword and classifies as
`CB_TREND`. -/
theorem detect_question_type_spec_witness :
    detect_question_type "" = QuestionType.CB_TREND :=
  (detect_question_type_spec "").2.2.2 (by intro t; cases t <;> rfl)

/-- C9: each query builder first coerces the depot identifier with
`int(depot)`; a non-coercible identifier surfaces the validation error and no
query text is produced, while a coercible one yields the query text. -/
theorem query_builders_validate_depot (depot : String)
    (days_lookback min_order_frequency limit : ℤ) :
    (pyParseInt depot = none →
      generate_cb_trend_query depot days_lookback =
          Except.error (intCoercionError depot) ∧
        generate_missing_items_query depot days_lookback min_order_frequency =
          Except.error (intCoercionError depot) ∧
        generate_item_frequency_query depot days_lookback limit =
          Except.error (intCoercionError depot)) ∧
      ∀ n, pyParseInt depot = some n →
        generate_cb_trend_query depot days_lookback =
            Except.ok (trend_query_text n days_lookback) ∧
          generate_missing_items_query depot days_lookback min_order_frequency =
            Except.ok (missing_items_query_text n days_lookback
              min_order_frequency) ∧
          generate_item_frequency_query depot days_lookback limit =
            Except.ok (item_frequency_query_text limit) := by
  constructor
  · intro h
    refine ⟨?_, ?_, ?_⟩ <;>
      simp [generate_cb_trend_query, generate_missing_items_query,
        generate_item_frequency_query, h]
  · intro n h
    refine ⟨?_, ?_, ?_⟩ <;>
      simp [generate_cb_trend_query, generate_missing_items_query,
        generate_item_frequency_query, h]

/-- Witness for C9: `"abc"` is rejected by every builder, `"12"` accepted. -/
theorem query_builders_validate_depot_witness :
    generate_cb_trend_query "abc" 30 = Except.error (intCoercionError "abc") ∧
      generate_missing_items_query "abc" 7 5 =
        Except.error (intCoercionError "abc") ∧
      generate_item_frequency_query "abc" 30 50 =
        Except.error (intCoercionError "abc") ∧
      generate_cb_trend_query "12" 30 = Except.ok (trend_query_text 12 30) := by
  have habc := (query_builders_validate_depot "abc" 30 5 50).1 (by decide)
  have h12 := (query_builders_validate_depot "12" 30 5 50).2 12 (by decide)
  exact ⟨habc.1, (query_builders_validate_depot "abc" 7 5 50).1 (by decide)
    |>.2.1, habc.2.2, h12.1⟩
